import Mathlib

/-! Currency-detection web application: upload form, result card, history view,
error middleware.

A shallow embedding of the state handling in

* `ml-frontend/frontend/src/config/api.js` (`API_CONFIG`, `buildApiUrl`, `getEndpoint`),
* `ml-frontend/frontend/src/components/ImageUploadForm.jsx` (the upload form handlers),
* `ml-frontend/frontend/src/components/PredictionResult.jsx` (the result card),
* `ml-frontend/frontend/src/components/UploadHistory.jsx` (the history view handlers),
* `ml-backend/server.js` (the error handler middleware),

followed by theorems about these definitions.

React state is an explicit record; each handler is a function from the state in
which it was created to the state after its `set...` calls have been applied,
together with the HTTP requests it issued where it can issue any.  A handler
that awaits a response is run against a `backend` function giving the outcome
of each request.
-/

namespace FinalYear

/-! ## config/api.js -/

/-- The value of a property read `API_CONFIG.ENDPOINTS[key]`: a configured path
(an own property, a string), a member inherited from `Object.prototype`
(a function or an object, never a string), or `undefined`. -/
inductive Member where
  | undefined
  | string (s : String)
  | inherited (name : String)
deriving DecidableEq, Repr

/-- `API_CONFIG.ENDPOINTS`: the own properties of the endpoint table. -/
def ENDPOINTS : List (String × String) :=
  [ ("PREDICT_SINGLE", "/predict"),
    ("PREDICT_MULTIPLE", "/predict_multiple"),
    ("UPLOAD_HISTORY", "/upload_history"),
    ("MODEL_STATS", "/model_stats"),
    ("HEALTH_CHECK", "/health"),
    ("HOME", "/") ]

/-- Property names every plain object inherits from `Object.prototype`. -/
def objectPrototypeKeys : List String :=
  [ "constructor", "__proto__", "hasOwnProperty", "isPrototypeOf",
    "propertyIsEnumerable", "toLocaleString", "toString", "valueOf",
    "__defineGetter__", "__defineSetter__", "__lookupGetter__", "__lookupSetter__" ]

/-- The property read `API_CONFIG.ENDPOINTS[key]`. -/
def endpointsGet (key : String) : Member :=
  match ENDPOINTS.lookup key with
  | some path => .string path
  | none => if key ∈ objectPrototypeKeys then .inherited key else .undefined

/-- JavaScript truthiness of a `Member`. -/
def Member.truthy : Member → Bool
  | .undefined => false
  | .string s => s != ""
  | .inherited _ => true

/-- `getEndpoint = (key) => API_CONFIG.ENDPOINTS[key] || key`. -/
def getEndpoint (key : String) : Member :=
  if (endpointsGet key).truthy then endpointsGet key else .string key

/-- `API_CONFIG.BASE_URL`:
`(typeof import.meta !== 'undefined' && import.meta.env?.VITE_API_URL) || 'http://localhost:5000'`. -/
def BASE_URL (VITE_API_URL : Option String) : String :=
  match VITE_API_URL with
  | some u => if u != "" then u else "http://localhost:5000"
  | none => "http://localhost:5000"

/-- How a template literal renders a `Member`.  The member inherited as
`__proto__` is the object `Object.prototype`, the one inherited as `constructor`
is the function `Object`, and every other inherited member is a native function
named like its key. -/
def Member.render : Member → String
  | .undefined => "undefined"
  | .string s => s
  | .inherited name =>
      if name = "__proto__" then "[object Object]"
      else if name = "constructor" then "function Object() \x7b [native code] \x7d"
      else "function " ++ name ++ "() \x7b [native code] \x7d"

/-- `buildApiUrl = (endpoint) => BASE_URL followed by endpoint` (a template literal). -/
def buildApiUrl (VITE_API_URL : Option String) (endpoint : Member) : String :=
  BASE_URL VITE_API_URL ++ endpoint.render

/-- `API_CONFIG.REQUEST_CONFIG.timeout`, in milliseconds. -/
def REQUEST_CONFIG_timeout : Nat := 30000

/-- `API_CONFIG.UPLOAD_CONFIG.maxFileSize`. -/
def UPLOAD_CONFIG_maxFileSize : Nat := 16 * 1024 * 1024

/-- `API_CONFIG.UPLOAD_CONFIG.allowedTypes`. -/
def UPLOAD_CONFIG_allowedTypes : List String :=
  ["image/jpeg", "image/jpg", "image/png", "image/gif", "image/bmp", "image/tiff"]

/-- `API_CONFIG.UPLOAD_CONFIG.maxFiles`. -/
def UPLOAD_CONFIG_maxFiles : Nat := 10

/-- `API_CONFIG.PAGINATION.defaultPageSize`. -/
def PAGINATION_defaultPageSize : Nat := 10

/-- `API_CONFIG.PAGINATION.pageSizeOptions`. -/
def PAGINATION_pageSizeOptions : List Nat := [5, 10, 25, 50]

/-! ## components/ImageUploadForm.jsx -/

/-- A browser `File` as the form reads it: name, MIME type and size in bytes. -/
structure File where
  name : String
  type : String
  size : Nat
deriving DecidableEq, Repr

/-- `str.startsWith(pre)` on the characters of the two strings. -/
def startsWith (str pre : String) : Bool :=
  pre.data.isPrefixOf str.data

/-- The test `file.type.startsWith('image/')` used by both file handlers. -/
def isImageFile (file : File) : Bool :=
  startsWith file.type "image/"

/-- What the form needs from the browser and the build: `URL.createObjectURL`
and the `VITE_API_URL` build variable. -/
structure Browser where
  createObjectURL : File → String
  VITE_API_URL : Option String

/-- One prediction payload: the body of a `/predict` response, or one item of
the `results` list of a `/predict_multiple` response.  Absent fields are `none`. -/
structure PredictionData where
  label : Option String
  confidence : Option Rat
  processing_time : Option Rat
  filename : Option String
  upload_id : Option String
  status : Option String
  error : Option String
deriving DecidableEq, Repr

/-- The body of a `/predict_multiple` response. -/
structure BatchData where
  results : List PredictionData
  successful_predictions : Nat
deriving DecidableEq, Repr

/-- The value of the `uploadMode` state: `'single'` or `'multiple'`. -/
inductive UploadMode where
  | single
  | multiple
deriving DecidableEq, Repr

/-- The `useState` cells of `ImageUploadForm`. -/
structure FormState where
  selectedFiles : List File
  previewUrls : List String
  isLoading : Bool
  predictionResults : List PredictionData
  error : String
  success : String
  showCamera : Bool
  uploadMode : UploadMode
deriving DecidableEq, Repr

/-- The initial values given to `useState`. -/
def FormState.initial : FormState :=
  { selectedFiles := [], previewUrls := [], isLoading := false, predictionResults := [],
    error := "", success := "", showCamera := false, uploadMode := .single }

/-- `handleSingleFile(file)`; `none` is the missing file (`files[0]` of an empty list). -/
def handleSingleFile (env : Browser) (file : Option File) (s : FormState) : FormState :=
  match file with
  | some f =>
      if isImageFile f then
        { s with selectedFiles := [f], previewUrls := [env.createObjectURL f],
                 error := "", success := "", predictionResults := [] }
      else
        { s with error := "Please select a valid image file." }
  | none => { s with error := "Please select a valid image file." }

/-- `handleMultipleFiles(files)`. -/
def handleMultipleFiles (env : Browser) (files : List File) (s : FormState) : FormState :=
  let validFiles := files.filter isImageFile
  if validFiles.length = 0 then
    { s with error := "Please select valid image files." }
  else
    { s with selectedFiles := validFiles, previewUrls := validFiles.map env.createObjectURL,
             error := "", success := "", predictionResults := [] }

/-- `handleFileSelect(event)`, with `files = Array.from(event.target.files)`. -/
def handleFileSelect (env : Browser) (files : List File) (s : FormState) : FormState :=
  match s.uploadMode with
  | .single => handleSingleFile env files.head? s
  | .multiple => handleMultipleFiles env files s

/-- `handleCameraCapture()`. -/
def handleCameraCapture (s : FormState) : FormState :=
  { s with showCamera := true }

/-- `handleCameraClose()`. -/
def handleCameraClose (s : FormState) : FormState :=
  { s with showCamera := false }

/-- `handleCameraCaptureSuccess(imageBlob)`: `now` is `Date.now()` and `blobSize`
the size of the blob wrapped into the new JPEG file. -/
def handleCameraCaptureSuccess (env : Browser) (now blobSize : Nat) (s : FormState) : FormState :=
  let file : File :=
    { name := "camera_capture_" ++ toString now ++ ".jpg", type := "image/jpeg", size := blobSize }
  let s1 :=
    match s.uploadMode with
    | .single => handleSingleFile env (some file) s
    | .multiple =>
        { s with selectedFiles := s.selectedFiles ++ [file],
                 previewUrls := s.previewUrls ++ [env.createObjectURL file] }
  { s1 with showCamera := false }

/-- `prev.filter((_, i) => i !== index)`. -/
def filterOutIndex {α : Type} (index : Nat) (prev : List α) : List α :=
  (prev.enum.filter (fun p => p.1 != index)).map Prod.snd

/-- `removeFile(index)`. -/
def removeFile (index : Nat) (s : FormState) : FormState :=
  { s with selectedFiles := filterOutIndex index s.selectedFiles,
           previewUrls := filterOutIndex index s.previewUrls,
           predictionResults := filterOutIndex index s.predictionResults }

/-- `clearAll()`. -/
def clearAll (s : FormState) : FormState :=
  { s with selectedFiles := [], previewUrls := [], predictionResults := [],
           error := "", success := "" }

/-- `toggleUploadMode()`: flips the mode, then `clearAll()`. -/
def toggleUploadMode (s : FormState) : FormState :=
  clearAll { s with uploadMode := if s.uploadMode = .single then .multiple else .single }

/-- The `onClick` of the 'Single Image' chip: `() => setUploadMode('single')`. -/
def singleImageChipClick (s : FormState) : FormState :=
  { s with uploadMode := .single }

/-- The `onClick` of the 'Multiple Images' chip: `() => setUploadMode('multiple')`. -/
def multipleImagesChipClick (s : FormState) : FormState :=
  { s with uploadMode := .multiple }

/-- The multipart request passed to `axios.post`: URL, the `FormData` entries in
append order, the `Content-Type` header and the timeout. -/
structure PredictRequest where
  url : String
  formData : List (String × File)
  contentType : String
  timeout : Nat
deriving DecidableEq, Repr

/-- A rejected request as the `catch` block reads it: `responseDataError` is
`error.response?.data?.error`, `none` when any link of the chain is missing. -/
structure AxiosError where
  responseDataError : Option String
deriving DecidableEq, Repr

/-- The outcome of each awaited `axios.post`: `/predict` answers with one
payload, `/predict_multiple` with a batch. -/
structure PredictBackend where
  predict : PredictRequest → Except AxiosError PredictionData
  predictMultiple : PredictRequest → Except AxiosError BatchData

/-- The `catch` block of `handleSubmit`: a truthy server message is passed
through, anything else gives the generic message. -/
def submitErrorMessage (e : AxiosError) : String :=
  match e.responseDataError with
  | some msg => if msg != "" then msg else "An error occurred while processing the images. Please try again."
  | none => "An error occurred while processing the images. Please try again."

/-- The request built by the single-mode branch of `handleSubmit`:
`formData.append('file', selectedFiles[0])`, posted to `PREDICT_SINGLE`. -/
def singleRequest (env : Browser) (s : FormState) : PredictRequest :=
  { url := buildApiUrl env.VITE_API_URL (getEndpoint "PREDICT_SINGLE"),
    formData := s.selectedFiles.head?.toList.map (fun f => ("file", f)),
    contentType := "multipart/form-data",
    timeout := REQUEST_CONFIG_timeout }

/-- The request built by the multiple-mode branch of `handleSubmit`: every
selected file appended under `files`, posted to `PREDICT_MULTIPLE`. -/
def multipleRequest (env : Browser) (s : FormState) : PredictRequest :=
  { url := buildApiUrl env.VITE_API_URL (getEndpoint "PREDICT_MULTIPLE"),
    formData := s.selectedFiles.map (fun f => ("files", f)),
    contentType := "multipart/form-data",
    timeout := REQUEST_CONFIG_timeout }

/-- `handleSubmit()`, run to completion against `backend` with no other event
in between: the state after all its `set...` calls and the requests it issued. -/
def handleSubmit (env : Browser) (backend : PredictBackend) (s : FormState) :
    FormState × List PredictRequest :=
  if s.selectedFiles.length = 0 then
    ({ s with error := "Please select at least one image file." }, [])
  else
    let s1 := { s with isLoading := true, error := "", success := "" }
    match s.uploadMode with
    | .single =>
        let request := singleRequest env s
        match backend.predict request with
        | .ok data =>
            ({ s1 with predictionResults := [data], success := "Image processed successfully!",
                       isLoading := false }, [request])
        | .error e =>
            ({ s1 with error := submitErrorMessage e, isLoading := false }, [request])
    | .multiple =>
        let request := multipleRequest env s
        match backend.predictMultiple request with
        | .ok data =>
            ({ s1 with predictionResults := data.results,
                       success := toString data.successful_predictions ++
                         " images processed successfully!",
                       isLoading := false }, [request])
        | .error e =>
            ({ s1 with error := submitErrorMessage e, isLoading := false }, [request])

/-- The heading of the selected-files section: rendered only when
`selectedFiles.length > 0`, as `Selected Images (n)`. -/
def selectedImagesHeading (s : FormState) : Option String :=
  if s.selectedFiles.length > 0 then
    some ("Selected Images (" ++ toString s.selectedFiles.length ++ ")")
  else none

/-- The gestures the form reacts to. -/
inductive FormEvent where
  | fileInputChange (files : List File)
  | cameraButton
  | cameraClose
  | cameraCaptured (now blobSize : Nat)
  | removeClicked (index : Nat)
  | clearAllClicked
  | submitClicked
  | singleImageChip
  | multipleImagesChip

/-- The handler wired to each gesture in the JSX, with the requests it issues. -/
def formStep (env : Browser) (backend : PredictBackend) (e : FormEvent) (s : FormState) :
    FormState × List PredictRequest :=
  match e with
  | .fileInputChange files => (handleFileSelect env files s, [])
  | .cameraButton => (handleCameraCapture s, [])
  | .cameraClose => (handleCameraClose s, [])
  | .cameraCaptured now blobSize => (handleCameraCaptureSuccess env now blobSize s, [])
  | .removeClicked index => (removeFile index s, [])
  | .clearAllClicked => (clearAll s, [])
  | .submitClicked => handleSubmit env backend s
  | .singleImageChip => (singleImageChipClick s, [])
  | .multipleImagesChip => (multipleImagesChipClick s, [])

/-! ## components/UploadHistory.jsx -/

/-- One row of `historyResponse.data.uploads`. -/
structure UploadRecord where
  id : Nat
  original_filename : String
  prediction_result : Option String
  confidence_score : Option Rat
  processing_time : Option Rat
  file_size : Nat
  upload_timestamp : Option String
deriving DecidableEq, Repr

/-- The body of a `/model_stats` response. -/
structure ModelStats where
  total_uploads : Nat
  uploads_today : Nat
  average_processing_time : Rat
  model_status : String
  predictions_distribution : List (String × Nat)
deriving DecidableEq, Repr

/-- A request issued by `fetchData`: the history page request with its query
parameters, or the statistics request. -/
inductive HistoryRequest where
  | uploadHistory (url : String) (page per_page : Nat) (timeout : Nat)
  | modelStats (url : String) (timeout : Nat)
deriving DecidableEq, Repr

/-- The `useState` cells of `UploadHistory`. -/
structure HistoryState where
  uploads : List UploadRecord
  modelStats : Option ModelStats
  loading : Bool
  error : String
  page : Nat
  rowsPerPage : Nat
deriving DecidableEq, Repr

/-- The initial values given to `useState`. -/
def HistoryState.initial : HistoryState :=
  { uploads := [], modelStats := none, loading := false, error := "",
    page := 0, rowsPerPage := PAGINATION_defaultPageSize }

/-- The outcome of each awaited `axios.get`; `none` is a rejected request. -/
structure HistoryBackend where
  uploadHistory : HistoryRequest → Option (List UploadRecord)
  modelStats : HistoryRequest → Option ModelStats

/-- `fetchData()`, run to completion against `backend`: the history request is
awaited first; the statistics request is built only after it has resolved. -/
def fetchData (VITE_API_URL : Option String) (backend : HistoryBackend) (s : HistoryState) :
    HistoryState × List HistoryRequest :=
  let s1 := { s with loading := true, error := "" }
  let historyRequest :=
    HistoryRequest.uploadHistory (buildApiUrl VITE_API_URL (getEndpoint "UPLOAD_HISTORY"))
      (s.page + 1) s.rowsPerPage REQUEST_CONFIG_timeout
  match backend.uploadHistory historyRequest with
  | none =>
      ({ s1 with error := "Failed to fetch data. Please try again.", loading := false },
        [historyRequest])
  | some uploads =>
      let s2 := { s1 with uploads := uploads }
      let statsRequest :=
        HistoryRequest.modelStats (buildApiUrl VITE_API_URL (getEndpoint "MODEL_STATS"))
          REQUEST_CONFIG_timeout
      match backend.modelStats statsRequest with
      | none =>
          ({ s2 with error := "Failed to fetch data. Please try again.", loading := false },
            [historyRequest, statsRequest])
      | some stats =>
          ({ s2 with modelStats := some stats, loading := false },
            [historyRequest, statsRequest])

/-- `handleChangePage(event, newPage)`. -/
def handleChangePage (newPage : Nat) (s : HistoryState) : HistoryState :=
  { s with page := newPage }

/-- `handleChangeRowsPerPage(event)`, with `newSize = parseInt(event.target.value, 10)`. -/
def handleChangeRowsPerPage (newSize : Nat) (s : HistoryState) : HistoryState :=
  { s with rowsPerPage := newSize, page := 0 }

/-- The dependency array of the component's only effect,
`useEffect(() => fetchData(), [])`, evaluated in a state: it lists no state cell. -/
def effectDeps (_s : HistoryState) : List Nat := []

/-- The gestures and lifecycle moments the history view reacts to. -/
inductive HistoryEvent where
  | mount
  | changePage (newPage : Nat)
  | changeRowsPerPage (newSize : Nat)
  | refreshClicked

/-- What React does after a handler has moved the state from `old` to `new`:
the effect runs again only if its dependency array changed. -/
def rerunEffect (VITE_API_URL : Option String) (backend : HistoryBackend)
    (old new : HistoryState) : HistoryState × List HistoryRequest :=
  if effectDeps old = effectDeps new then (new, []) else fetchData VITE_API_URL backend new

/-- One step of the history view: mounting runs the effect once, the pagination
handlers update the state and let React re-render, Refresh calls `fetchData`. -/
def historyStep (VITE_API_URL : Option String) (backend : HistoryBackend) (e : HistoryEvent)
    (s : HistoryState) : HistoryState × List HistoryRequest :=
  match e with
  | .mount => fetchData VITE_API_URL backend s
  | .changePage newPage => rerunEffect VITE_API_URL backend s (handleChangePage newPage s)
  | .changeRowsPerPage newSize =>
      rerunEffect VITE_API_URL backend s (handleChangeRowsPerPage newSize s)
  | .refreshClicked => fetchData VITE_API_URL backend s

/-! ## ml-backend/server.js -/

/-- The `err` object handed to the error middleware. -/
structure ServerError where
  message : String
  stack : String
deriving DecidableEq, Repr

/-- The JSON body written by the error middleware; `stack = none` is `null`. -/
structure ErrorBody where
  message : String
  stack : Option String
deriving DecidableEq, Repr

/-- A response that carries a JSON body: its HTTP status and the body. -/
structure ErrorResponse where
  status : Nat
  body : ErrorBody
deriving DecidableEq, Repr

/-- What comes of the call `res.status(statusCode).json(body)`: a response with
the JSON body, a response of that status with no body, or a `RangeError` thrown
for an invalid status code (no response is written by the middleware). -/
inductive ErrorOutcome where
  | json (response : ErrorResponse)
  | noBody (status : Nat)
  | rangeError
deriving DecidableEq, Repr

/-- `res.status(statusCode).json(body)` as Express and Node's HTTP server carry
it out, for a request that is neither HEAD nor conditional and whose headers are
not yet sent.  A status code outside 100..999 is refused with a `RangeError`
(Node's `writeHead`).  No body is written for 204 and 304 (Express's `res.send`
empties it), for 205 (`res.send` of Express 4.18 and later) and for 100..199
(Node's `writeHead` clears `_hasBody`).  Every other status is sent with the
JSON body. -/
def sendJson (statusCode : Nat) (body : ErrorBody) : ErrorOutcome :=
  if statusCode < 100 ∨ 999 < statusCode then .rangeError
  else if statusCode < 200 ∨ statusCode = 204 ∨ statusCode = 205 ∨ statusCode = 304 then
    .noBody statusCode
  else .json { status := statusCode, body := body }

/-- The error handler middleware: `resStatusCode` is `res.statusCode` on entry and
`NODE_ENV` is `process.env.NODE_ENV` (`none` when unset). -/
def errorHandler (NODE_ENV : Option String) (err : ServerError) (resStatusCode : Nat) :
    ErrorOutcome :=
  let statusCode := if resStatusCode = 200 then 500 else resStatusCode
  sendJson statusCode
    { message := err.message,
      stack := if NODE_ENV = some "development" then some err.stack else none }

/-! ## components/PredictionResult.jsx -/

/-- `getResultType(label)`; a missing label is `none`. -/
def getResultType (label : Option String) : String :=
  if label = some "real" then "real"
  else if label = some "fake" then "fake"
  else "not_currency"

/-- `getResultIcon(label)`. -/
def getResultIcon (label : Option String) : String :=
  if label = some "real" then "✅"
  else if label = some "fake" then "❌"
  else "🚫"

/-- `getResultColor(label)`. -/
def getResultColor (label : Option String) : String :=
  if label = some "real" then "success"
  else if label = some "fake" then "error"
  else "warning"

/-- `getResultText(label)`. -/
def getResultText (label : Option String) : String :=
  if label = some "real" then "Real Currency"
  else if label = some "fake" then "Fake Currency"
  else "Not a Currency"

/-- JavaScript truthiness of an optional string field: present and not empty. -/
def truthyString (v : Option String) : Bool :=
  match v with
  | some str => str != ""
  | none => false

/-- The outlined chip of the status block: its label and colour. -/
structure StatusChip where
  label : String
  color : String
deriving DecidableEq, Repr

/-- What the result card shows.  `confidence` and `processingTime` are the
numbers handed to the percentage, bar and seconds displays (before `toFixed`);
the optional blocks are `none` when their guard is falsy. -/
structure ResultCardView where
  resultType : String
  heading : String
  color : String
  confidence : Rat
  processingTime : Rat
  fileLine : Option String
  idLine : Option String
  statusChip : Option StatusChip
  errorLine : Option String
deriving DecidableEq, Repr

/-- What `PredictionResult` returns: the placeholder text or the result card. -/
inductive ResultRender where
  | placeholder (text : String)
  | card (view : ResultCardView)
deriving DecidableEq, Repr

/-- `PredictionResult({ result })`; `none` is a missing (falsy) `result`. -/
def PredictionResult (result : Option PredictionData) : ResultRender :=
  match result with
  | none => .placeholder "No prediction result available"
  | some r =>
      .card
        { resultType := getResultType r.label,
          heading := getResultIcon r.label ++ " " ++ getResultText r.label,
          color := getResultColor r.label,
          confidence := r.confidence.getD 0,
          processingTime := r.processing_time.getD 0,
          fileLine :=
            if truthyString r.filename then some ("File: " ++ r.filename.getD "") else none,
          idLine :=
            if truthyString r.filename && truthyString r.upload_id then
              some ("ID: " ++ r.upload_id.getD "")
            else none,
          statusChip :=
            if truthyString r.status then
              some { label := if r.status = some "success" then "Success" else "Failed",
                     color := if r.status = some "success" then "success" else "error" }
            else none,
          errorLine :=
            if truthyString r.error then some ("Error: " ++ r.error.getD "") else none }

/-! ## components/UploadHistory.jsx: display helpers and requests -/

/-- `getPredictionColor(prediction)`: the `switch` of the history table. -/
def getPredictionColor (prediction : Option String) : String :=
  match prediction with
  | some "real" => "success"
  | some "fake" => "error"
  | some "not_currency" => "warning"
  | _ => "default"

/-- The first `axios.get` of `fetchData`, built in state `s`. -/
def uploadHistoryRequest (VITE_API_URL : Option String) (s : HistoryState) : HistoryRequest :=
  .uploadHistory (buildApiUrl VITE_API_URL (getEndpoint "UPLOAD_HISTORY"))
    (s.page + 1) s.rowsPerPage REQUEST_CONFIG_timeout

/-- The second `axios.get` of `fetchData`. -/
def modelStatsRequest (VITE_API_URL : Option String) : HistoryRequest :=
  .modelStats (buildApiUrl VITE_API_URL (getEndpoint "MODEL_STATS")) REQUEST_CONFIG_timeout

/-! ## Event sequences -/

/-- The form after a sequence of gestures, each handled to completion. -/
def formRun (env : Browser) (backend : PredictBackend) (events : List FormEvent)
    (s : FormState) : FormState :=
  events.foldl (fun st e => (formStep env backend e st).1) s

/-! ## Sample inputs -/

/-- A browser whose object URLs are `blob:` followed by the file name, with no
`VITE_API_URL` set. -/
def sampleBrowser : Browser :=
  { createObjectURL := fun f => "blob:" ++ f.name, VITE_API_URL := none }

/-- A PNG image file. -/
def notePng : File := { name := "note.png", type := "image/png", size := 2048 }

/-- A WebP image file. -/
def noteWebp : File := { name := "note.webp", type := "image/webp", size := 4096 }

/-- A PDF document. -/
def scanPdf : File := { name := "scan.pdf", type := "application/pdf", size := 1024 }

/-- A payload labelled `real`. -/
def realNote : PredictionData :=
  { label := some "real", confidence := some (9 / 10), processing_time := some (1 / 2),
    filename := some "note.png", upload_id := some "42", status := none, error := none }

/-- A payload labelled `fake`. -/
def fakeNote : PredictionData :=
  { label := some "fake", confidence := some (3 / 4), processing_time := some (1 / 4),
    filename := some "other.png", upload_id := some "43", status := some "success", error := none }

/-- A backend that answers every request successfully. -/
def okBackend : PredictBackend :=
  { predict := fun _ => .ok realNote,
    predictMultiple := fun _ => .ok { results := [realNote, fakeNote], successful_predictions := 2 } }

/-- Single mode with one selected file, its preview and its result. -/
def singleWithResult : FormState :=
  { FormState.initial with
    selectedFiles := [notePng], previewUrls := ["blob:note.png"], predictionResults := [realNote] }

/-- An error thrown by a route handler. -/
def routeError : ServerError :=
  { message := "Detection not found", stack := "Error: Detection not found\n    at getDetection" }

/-- Eleven PNG image files, one more than `UPLOAD_CONFIG_maxFiles`. -/
def elevenImages : List File := List.replicate 11 notePng

/-- A history backend that answers both requests successfully, with no rows. -/
def okHistoryBackend : HistoryBackend :=
  { uploadHistory := fun _ => some [],
    modelStats := fun _ =>
      some { total_uploads := 0, uploads_today := 0, average_processing_time := 0,
             model_status := "active", predictions_distribution := [] } }

/-- A backend that rejects every predict request with the error `e`. -/
def failingBackend (e : AxiosError) : PredictBackend :=
  { predict := fun _ => .error e, predictMultiple := fun _ => .error e }

/-- A history backend whose history request fails while its statistics
endpoint would answer. -/
def historyDownBackend : HistoryBackend :=
  { uploadHistory := fun _ => none,
    modelStats := fun _ =>
      some { total_uploads := 7, uploads_today := 1, average_processing_time := 0,
             model_status := "active", predictions_distribution := [("real", 7)] } }

/-- Three images chosen in multiple mode, then the 'Single Image' chip, then a
PDF offered to the file input. -/
def carriedSelection : List FormEvent :=
  [ .multipleImagesChip, .fileInputChange [notePng, noteWebp, notePng],
    .singleImageChip, .fileInputChange [scanPdf] ]

/-- A batch item that failed on the server. -/
def failedItem : PredictionData :=
  { label := none, confidence := none, processing_time := none,
    filename := some "blurred.png", upload_id := none,
    status := some "error", error := some "Could not read image" }

/-! ## Theorems: upload form -/

/-- Enumerated from `n`, no position equals an index below `n`: the filter
keeps the whole list. -/
theorem enumFrom_filter_ne_of_lt {α : Type} (xs : List α) (n m : Nat) (h : m < n) :
    ((List.enumFrom n xs).filter (fun p => p.1 != m)).map Prod.snd = xs := by
  induction xs generalizing n with
  | nil => rfl
  | cons x xs ih =>
    have hne : (n != m) = true := by simp; omega
    simp only [List.enumFrom_cons, List.filter_cons, hne, if_true, List.map_cons]
    rw [ih (n + 1) (by omega)]

/-- Enumerated from `n`, dropping position `n + i` removes the `i`-th element. -/
theorem enumFrom_filter_ne {α : Type} (xs : List α) (n i : Nat) :
    ((List.enumFrom n xs).filter (fun p => p.1 != n + i)).map Prod.snd
      = xs.take i ++ xs.drop (i + 1) := by
  induction xs generalizing n i with
  | nil => simp
  | cons x xs ih =>
    cases i with
    | zero =>
      have hself : (n != n + 0) = false := by simp
      simp only [List.enumFrom_cons, List.filter_cons, hself]
      simpa using enumFrom_filter_ne_of_lt xs (n + 1) n (by omega)
    | succ j =>
      have hne : (n != n + (j + 1)) = true := by simp
      have hidx : n + (j + 1) = (n + 1) + j := by omega
      simp only [List.enumFrom_cons, List.filter_cons, hne, if_true, List.map_cons]
      rw [hidx, ih (n + 1) j]
      simp

/-- The array filter `prev.filter((_, i) => i !== index)` is the list without
its element at `index`. -/
theorem filterOutIndex_eq {α : Type} (index : Nat) (prev : List α) :
    filterOutIndex index prev = prev.take index ++ prev.drop (index + 1) := by
  have h := enumFrom_filter_ne prev 0 index
  simpa [filterOutIndex, List.enum] using h

/-- An index at or past the end removes nothing. -/
theorem filterOutIndex_of_length_le {α : Type} (index : Nat) (prev : List α)
    (h : prev.length ≤ index) : filterOutIndex index prev = prev := by
  rw [filterOutIndex_eq, List.take_of_length_le h, List.drop_of_length_le (by omega)]
  simp

/-- The unused handler `toggleUploadMode` flips the mode and empties the
selections, previews and results. -/
theorem toggleUploadMode_clears (s : FormState) :
    (toggleUploadMode s).uploadMode ≠ s.uploadMode ∧
    (toggleUploadMode s).selectedFiles = [] ∧
    (toggleUploadMode s).previewUrls = [] ∧
    (toggleUploadMode s).predictionResults = [] := by
  refine ⟨?_, rfl, rfl, rfl⟩
  cases hm : s.uploadMode <;> simp [toggleUploadMode, clearAll, hm]

/-- C1 (code defect): clicking the 'Multiple Images' chip in single mode, with one
file selected, previewed and classified, switches `uploadMode` from single to
multiple and issues no request, yet `selectedFiles`, `previewUrls` and
`predictionResults` keep their one entry each; the chip handlers call
`setUploadMode` only, not `clearAll`. -/
theorem multipleImagesChip_keeps_selection :
    singleWithResult.uploadMode = .single ∧
    (formStep sampleBrowser okBackend .multipleImagesChip singleWithResult).1.uploadMode
      = .multiple ∧
    (formStep sampleBrowser okBackend .multipleImagesChip singleWithResult).1.selectedFiles
      = [notePng] ∧
    (formStep sampleBrowser okBackend .multipleImagesChip singleWithResult).1.previewUrls
      = ["blob:note.png"] ∧
    (formStep sampleBrowser okBackend .multipleImagesChip singleWithResult).1.predictionResults
      = [realNote] := by
  refine ⟨rfl, rfl, rfl, rfl, rfl⟩

/-- C2: in single mode, when the chosen file is missing or its MIME type does not
start with `image/`, `handleSingleFile` changes nothing but the error, which
becomes 'Please select a valid image file.'; `selectedFiles`, `previewUrls` and
`predictionResults` are as before, and the file-input gesture that called it
issues no request. -/
theorem handleSingleFile_rejects_non_image (env : Browser) (backend : PredictBackend)
    (files : List File) (s : FormState) (hmode : s.uploadMode = .single)
    (hbad : ∀ f, files.head? = some f → startsWith f.type "image/" = false) :
    (formStep env backend (.fileInputChange files) s).1 = handleSingleFile env files.head? s ∧
    handleSingleFile env files.head? s
      = { s with error := "Please select a valid image file." } ∧
    (handleSingleFile env files.head? s).error = "Please select a valid image file." ∧
    (handleSingleFile env files.head? s).selectedFiles = s.selectedFiles ∧
    (handleSingleFile env files.head? s).previewUrls = s.previewUrls ∧
    (handleSingleFile env files.head? s).predictionResults = s.predictionResults ∧
    (formStep env backend (.fileInputChange files) s).2 = [] := by
  have hstate : handleSingleFile env files.head? s
      = { s with error := "Please select a valid image file." } := by
    cases hfile : files.head? with
    | none => rfl
    | some f =>
      have hf : isImageFile f = false := hbad f hfile
      simp [handleSingleFile, hf]
  refine ⟨?_, hstate, ?_, ?_, ?_, ?_, rfl⟩
  · simp [formStep, handleFileSelect, hmode]
  all_goals rw [hstate]

/-- Witness for C2: a PDF chosen in single mode while a classified PNG is selected. -/
theorem handleSingleFile_rejects_non_image_witness :
    (formStep sampleBrowser okBackend (.fileInputChange [scanPdf]) singleWithResult).1
      = handleSingleFile sampleBrowser [scanPdf].head? singleWithResult ∧
    handleSingleFile sampleBrowser [scanPdf].head? singleWithResult
      = { singleWithResult with error := "Please select a valid image file." } ∧
    (handleSingleFile sampleBrowser [scanPdf].head? singleWithResult).error
      = "Please select a valid image file." ∧
    (handleSingleFile sampleBrowser [scanPdf].head? singleWithResult).selectedFiles
      = singleWithResult.selectedFiles ∧
    (handleSingleFile sampleBrowser [scanPdf].head? singleWithResult).previewUrls
      = singleWithResult.previewUrls ∧
    (handleSingleFile sampleBrowser [scanPdf].head? singleWithResult).predictionResults
      = singleWithResult.predictionResults ∧
    (formStep sampleBrowser okBackend (.fileInputChange [scanPdf]) singleWithResult).2 = [] :=
  handleSingleFile_rejects_non_image sampleBrowser okBackend [scanPdf] singleWithResult rfl
    (by intro f hf; cases hf; decide)

/-- C3: given at least one image file, `handleMultipleFiles` sets `selectedFiles`
to the files whose MIME type starts with `image/`, in their original order, and
the form then shows the heading 'Selected Images (n)' with `n` the number kept;
in multiple mode the file-input gesture runs exactly this handler. -/
theorem handleMultipleFiles_keeps_images (env : Browser) (backend : PredictBackend)
    (files : List File) (s : FormState) (hmode : s.uploadMode = .multiple)
    (himg : ∃ f ∈ files, startsWith f.type "image/" = true) :
    (formStep env backend (.fileInputChange files) s).1 = handleMultipleFiles env files s ∧
    (handleMultipleFiles env files s).selectedFiles
      = files.filter (fun f => startsWith f.type "image/") ∧
    selectedImagesHeading (handleMultipleFiles env files s)
      = some ("Selected Images (" ++
          toString (files.filter (fun f => startsWith f.type "image/")).length ++ ")") := by
  obtain ⟨f, hf, hfi⟩ := himg
  have hmem : f ∈ files.filter isImageFile := List.mem_filter.mpr ⟨hf, hfi⟩
  have hpos : 0 < (files.filter isImageFile).length := List.length_pos_of_mem hmem
  have hsel : (handleMultipleFiles env files s).selectedFiles = files.filter isImageFile := by
    have hne : ¬ (files.filter isImageFile).length = 0 := by omega
    simp only [handleMultipleFiles, hne, if_false]
  refine ⟨?_, hsel, ?_⟩
  · simp [formStep, handleFileSelect, hmode]
  · unfold selectedImagesHeading
    rw [hsel, if_pos hpos]
    rfl

/-- Witness for C3: a PDF, a PNG and a WebP chosen together in multiple mode. -/
theorem handleMultipleFiles_keeps_images_witness :
    (handleMultipleFiles sampleBrowser [scanPdf, notePng, noteWebp]
        (multipleImagesChipClick FormState.initial)).selectedFiles
      = [scanPdf, notePng, noteWebp].filter (fun f => startsWith f.type "image/") ∧
    selectedImagesHeading (handleMultipleFiles sampleBrowser [scanPdf, notePng, noteWebp]
        (multipleImagesChipClick FormState.initial))
      = some ("Selected Images (" ++
          toString ([scanPdf, notePng, noteWebp].filter
            (fun f => startsWith f.type "image/")).length ++ ")") :=
  (handleMultipleFiles_keeps_images sampleBrowser okBackend [scanPdf, notePng, noteWebp]
    (multipleImagesChipClick FormState.initial) rfl ⟨notePng, by decide, by decide⟩).2

/-- C4: `removeFile(i)` removes the element at position `i` from `selectedFiles`,
from `previewUrls` and from `predictionResults`, each becoming its first `i`
elements followed by those after position `i`; an index `length + k` at or
beyond the end of a list leaves that list as it was. -/
theorem removeFile_removes_index (i k : Nat) (s : FormState) :
    (removeFile i s).selectedFiles = s.selectedFiles.take i ++ s.selectedFiles.drop (i + 1) ∧
    (removeFile i s).previewUrls = s.previewUrls.take i ++ s.previewUrls.drop (i + 1) ∧
    (removeFile i s).predictionResults
      = s.predictionResults.take i ++ s.predictionResults.drop (i + 1) ∧
    (removeFile (s.selectedFiles.length + k) s).selectedFiles = s.selectedFiles ∧
    (removeFile (s.previewUrls.length + k) s).previewUrls = s.previewUrls ∧
    (removeFile (s.predictionResults.length + k) s).predictionResults = s.predictionResults := by
  refine ⟨filterOutIndex_eq _ _, filterOutIndex_eq _ _, filterOutIndex_eq _ _, ?_, ?_, ?_⟩
  · exact filterOutIndex_of_length_le _ _ (by omega)
  · exact filterOutIndex_of_length_le _ _ (by omega)
  · exact filterOutIndex_of_length_le _ _ (by omega)

/-- C5: when a file is selected and the request succeeds, `handleSubmit` replaces
`predictionResults`, whatever it held: in single mode by the one-entry list holding
the response payload, in multiple mode by the response's `results` list, however
many files were selected. -/
theorem handleSubmit_success_results (env : Browser) (backend : PredictBackend)
    (s : FormState) (hsel : s.selectedFiles ≠ []) :
    (∀ data, s.uploadMode = .single → backend.predict (singleRequest env s) = .ok data →
      (handleSubmit env backend s).1.predictionResults = [data]) ∧
    (∀ batch, s.uploadMode = .multiple →
      backend.predictMultiple (multipleRequest env s) = .ok batch →
      (handleSubmit env backend s).1.predictionResults = batch.results) := by
  have hlen : ¬ s.selectedFiles.length = 0 := by
    intro h
    exact hsel (List.length_eq_zero.mp h)
  constructor
  · intro data hmode hok
    simp [handleSubmit, hlen, hmode, hok]
  · intro batch hmode hok
    simp [handleSubmit, hlen, hmode, hok]

/-- Witness for C5: three files selected in multiple mode, one stale result, and
a response carrying two results. -/
theorem handleSubmit_success_results_witness :
    (handleSubmit sampleBrowser okBackend
      { singleWithResult with selectedFiles := [notePng, noteWebp, notePng],
                              uploadMode := .multiple }).1.predictionResults
      = [realNote, fakeNote] :=
  (handleSubmit_success_results sampleBrowser okBackend
    { singleWithResult with selectedFiles := [notePng, noteWebp, notePng],
                            uploadMode := .multiple } (by decide)).2
    { results := [realNote, fakeNote], successful_predictions := 2 } rfl rfl

/-- C10: with no file selected, `handleSubmit` sets the error to 'Please select at
least one image file.' and returns at once: no request is issued, and `isLoading`,
`success`, `predictionResults` and every other cell are as before. -/
theorem handleSubmit_empty_selection (env : Browser) (backend : PredictBackend)
    (s : FormState) (hempty : s.selectedFiles = []) :
    (handleSubmit env backend s).1.error = "Please select at least one image file." ∧
    (handleSubmit env backend s).2 = [] ∧
    (handleSubmit env backend s).1.isLoading = s.isLoading ∧
    (handleSubmit env backend s).1.success = s.success ∧
    (handleSubmit env backend s).1.predictionResults = s.predictionResults ∧
    (handleSubmit env backend s).1
      = { s with error := "Please select at least one image file." } := by
  have hlen : s.selectedFiles.length = 0 := by rw [hempty]; rfl
  simp [handleSubmit, hlen]

/-- Witness for C10: a stale result and a success banner left over after the
selection was emptied. -/
theorem handleSubmit_empty_selection_witness :
    (handleSubmit sampleBrowser okBackend
      { singleWithResult with selectedFiles := [], success := "Image processed successfully!" }).1.error
      = "Please select at least one image file." ∧
    (handleSubmit sampleBrowser okBackend
      { singleWithResult with selectedFiles := [], success := "Image processed successfully!" }).2
      = [] :=
  have h := handleSubmit_empty_selection sampleBrowser okBackend
    { singleWithResult with selectedFiles := [], success := "Image processed successfully!" } rfl
  ⟨h.1, h.2.1⟩

/-- C8 (code defect): eleven image files passed to `handleMultipleFiles` in
multiple mode are all kept, so `selectedFiles` has length 11, above
`UPLOAD_CONFIG_maxFiles`, the configured maximum of 10 that the handler never
consults. -/
theorem handleMultipleFiles_exceeds_maxFiles :
    (handleMultipleFiles sampleBrowser elevenImages
        (multipleImagesChipClick FormState.initial)).selectedFiles.length = 11 ∧
    ¬ (handleMultipleFiles sampleBrowser elevenImages
        (multipleImagesChipClick FormState.initial)).selectedFiles.length
      ≤ UPLOAD_CONFIG_maxFiles := by
  constructor
  · decide
  · decide

/-- C9 (as stated, refuted): a WebP file is accepted by `handleSingleFile` and kept
by `handleMultipleFiles`, and its MIME type `image/webp` is not one of
`UPLOAD_CONFIG_allowedTypes`. -/
theorem webp_accepted_not_allowed :
    (handleSingleFile sampleBrowser (some noteWebp) FormState.initial).selectedFiles
      = [noteWebp] ∧
    (handleSingleFile sampleBrowser (some noteWebp) FormState.initial).error = "" ∧
    (handleMultipleFiles sampleBrowser [scanPdf, noteWebp] FormState.initial).selectedFiles
      = [noteWebp] ∧
    noteWebp.type ∉ UPLOAD_CONFIG_allowedTypes := by
  refine ⟨by decide, by decide, by decide, by decide⟩

/-- C9 (amended): if every selected file has a MIME type starting with `image/`,
the same holds after `handleSingleFile` and after `handleMultipleFiles`, whose new
selections are the offered file, respectively offered files, that pass this test;
and every type in `UPLOAD_CONFIG_allowedTypes` starts with `image/`. -/
theorem accepted_files_are_images (env : Browser) (file : Option File) (files : List File)
    (s : FormState) (hinv : ∀ f ∈ s.selectedFiles, startsWith f.type "image/" = true) :
    (∀ f ∈ (handleSingleFile env file s).selectedFiles, startsWith f.type "image/" = true) ∧
    (∀ f ∈ (handleMultipleFiles env files s).selectedFiles,
      startsWith f.type "image/" = true) ∧
    (∀ f, file = some f → startsWith f.type "image/" = true →
      (handleSingleFile env file s).selectedFiles = [f]) ∧
    (∀ f ∈ files, startsWith f.type "image/" = true →
      f ∈ (handleMultipleFiles env files s).selectedFiles) ∧
    (∀ t ∈ UPLOAD_CONFIG_allowedTypes, startsWith t "image/" = true) := by
  refine ⟨?_, ?_, ?_, ?_, by decide⟩
  · intro f hf
    cases file with
    | none => exact hinv f hf
    | some g =>
      by_cases hg : isImageFile g = true
      · simp only [handleSingleFile, hg, if_true, List.mem_singleton] at hf
        rw [hf]
        exact hg
      · simp only [handleSingleFile, hg] at hf
        exact hinv f hf
  · intro f hf
    by_cases hlen : (files.filter isImageFile).length = 0
    · simp only [handleMultipleFiles, hlen, if_true] at hf
      exact hinv f hf
    · simp only [handleMultipleFiles, hlen, if_false] at hf
      exact (List.mem_filter.mp hf).2
  · intro f hfile hf
    have hg : isImageFile f = true := hf
    simp [hfile, handleSingleFile, hg]
  · intro f hf hfi
    have hmem : f ∈ files.filter isImageFile := List.mem_filter.mpr ⟨hf, hfi⟩
    have hpos : 0 < (files.filter isImageFile).length := List.length_pos_of_mem hmem
    have hne : ¬ (files.filter isImageFile).length = 0 := by omega
    simp only [handleMultipleFiles, hne, if_false]
    exact hmem

/-- Witness for C9 (amended): a WebP offered to a form holding one PNG. -/
theorem accepted_files_are_images_witness :
    (∀ f ∈ (handleSingleFile sampleBrowser (some noteWebp) singleWithResult).selectedFiles,
      startsWith f.type "image/" = true) ∧
    (∀ f ∈ (handleMultipleFiles sampleBrowser [scanPdf, noteWebp] singleWithResult).selectedFiles,
      startsWith f.type "image/" = true) :=
  have h := accepted_files_are_images sampleBrowser (some noteWebp) [scanPdf, noteWebp]
    singleWithResult (by decide)
  ⟨h.1, h.2.1⟩

/-! ## Theorems: history view -/

/-- The history request built by `fetchData` carries `page + 1` and `rowsPerPage`
of the state it runs in, and is always issued first. -/
theorem fetchData_history_request (url : Option String) (backend : HistoryBackend)
    (s : HistoryState) :
    (fetchData url backend s).2.head?
      = some (.uploadHistory (buildApiUrl url (getEndpoint "UPLOAD_HISTORY"))
          (s.page + 1) s.rowsPerPage REQUEST_CONFIG_timeout) := by
  simp only [fetchData]
  split
  · rfl
  · split <;> rfl

/-- The pagination handlers update their cells and nothing is fetched: the effect
lists no dependency, so React never runs it again. -/
theorem pagination_issues_no_request (url : Option String) (backend : HistoryBackend)
    (n : Nat) (s : HistoryState) :
    historyStep url backend (.changePage n) s = (handleChangePage n s, []) ∧
    historyStep url backend (.changeRowsPerPage n) s = (handleChangeRowsPerPage n s, []) := by
  constructor <;> rfl

/-- C6 (code defect): from the initial history state, `handleChangePage(1)` sets
`page` to 1 and `handleChangeRowsPerPage(25)` sets `rowsPerPage` to 25, and in
both cases no request at all is issued, whereas mounting in the same state issues
the history request with `page = 1`, `per_page = 10`. -/
theorem changePage_issues_no_request :
    (historyStep none okHistoryBackend (.changePage 1) HistoryState.initial).1.page = 1 ∧
    (historyStep none okHistoryBackend (.changePage 1) HistoryState.initial).2 = [] ∧
    (historyStep none okHistoryBackend (.changeRowsPerPage 25) HistoryState.initial).1.rowsPerPage
      = 25 ∧
    (historyStep none okHistoryBackend (.changeRowsPerPage 25) HistoryState.initial).2 = [] ∧
    (historyStep none okHistoryBackend .mount HistoryState.initial).2
      = [ .uploadHistory "http://localhost:5000/upload_history" 1 10 30000,
          .modelStats "http://localhost:5000/model_stats" 30000 ] := by
  refine ⟨rfl, rfl, rfl, rfl, by decide⟩

/-! ## Theorems: error middleware -/

/-- C7 (as stated, refuted): an error reaching the middleware while the
response's status code is 204 is answered with status 204 and no body, so no
JSON body carries the error's message; with status code 0 the call throws a
`RangeError` and the middleware writes no response at all. -/
theorem errorHandler_without_json_body :
    errorHandler (some "development") routeError 204 = .noBody 204 ∧
    (¬ ∃ response, errorHandler (some "development") routeError 204 = .json response) ∧
    errorHandler (some "development") routeError 0 = .rangeError := by
  refine ⟨by decide, ?_, by decide⟩
  rintro ⟨response, h⟩
  have hno : errorHandler (some "development") routeError 204 = .noBody 204 := by decide
  rw [hno] at h
  cases h

/-- C7 (amended): when the response's current status code is between 200 and 999
and is not 204, 205 or 304, the error middleware answers with a JSON response
whose HTTP status is that status code, except that 200 becomes 500 (so never
200); the body's `message` is the error's message; its `stack` is the error's
stack trace when `NODE_ENV` is `development` and `null` for every other value,
unset included. -/
theorem errorHandler_json_response (NODE_ENV : Option String) (err : ServerError)
    (resStatusCode : Nat) (hlo : 200 ≤ resStatusCode) (hhi : resStatusCode ≤ 999)
    (h204 : resStatusCode ≠ 204) (h205 : resStatusCode ≠ 205) (h304 : resStatusCode ≠ 304) :
    ∃ response, errorHandler NODE_ENV err resStatusCode = .json response ∧
      response.status = (if resStatusCode = 200 then 500 else resStatusCode) ∧
      response.status ≠ 200 ∧
      response.body.message = err.message ∧
      (response.body.stack = some err.stack ↔ NODE_ENV = some "development") ∧
      (response.body.stack = none ↔ NODE_ENV ≠ some "development") := by
  refine ⟨{ status := if resStatusCode = 200 then 500 else resStatusCode,
            body := { message := err.message,
                      stack := if NODE_ENV = some "development" then some err.stack
                               else none } }, ?_, rfl, ?_, rfl, ?_, ?_⟩
  · by_cases h200 : resStatusCode = 200
    · subst h200
      rfl
    · have hrange : ¬ (resStatusCode < 100 ∨ 999 < resStatusCode) := by omega
      have hbody : ¬ (resStatusCode < 200 ∨ resStatusCode = 204 ∨ resStatusCode = 205 ∨
          resStatusCode = 304) := by omega
      simp only [errorHandler, sendJson, h200, if_false, hrange, hbody]
  · show (if resStatusCode = 200 then 500 else resStatusCode) ≠ 200
    split <;> omega
  · by_cases h : NODE_ENV = some "development" <;> simp [h]
  · by_cases h : NODE_ENV = some "development" <;> simp [h]

/-- Witness for C7 (amended): an error reaching the middleware in development
mode while the status code is still 200. -/
theorem errorHandler_json_response_witness :
    ∃ response, errorHandler (some "development") routeError 200 = .json response ∧
      response.status = 500 ∧
      response.body.message = "Detection not found" ∧
      response.body.stack = some routeError.stack :=
  have ⟨response, hsent, hstatus, _, hmessage, hstack, _⟩ :=
    errorHandler_json_response (some "development") routeError 200
      (by decide) (by decide) (by decide) (by decide) (by decide)
  ⟨response, hsent, hstatus, hmessage, hstack.mpr rfl⟩

/-! ## Theorems: submit failure -/

/-- C11: when a file is selected and the predict request of the current mode is
rejected with `e`, `handleSubmit` sets the error to the server's message when
`e` carries a non-empty one and to the generic fallback when it carries none or
an empty one; `predictionResults` is as before, `success` is empty and
`isLoading` is back to false. -/
theorem handleSubmit_failure_error (env : Browser) (backend : PredictBackend)
    (s : FormState) (e : AxiosError) (hsel : s.selectedFiles ≠ [])
    (hfail : match s.uploadMode with
      | .single => backend.predict (singleRequest env s) = .error e
      | .multiple => backend.predictMultiple (multipleRequest env s) = .error e) :
    (∀ msg, e.responseDataError = some msg → msg ≠ "" →
      (handleSubmit env backend s).1.error = msg) ∧
    (e.responseDataError = none ∨ e.responseDataError = some "" →
      (handleSubmit env backend s).1.error
        = "An error occurred while processing the images. Please try again.") ∧
    (handleSubmit env backend s).1.predictionResults = s.predictionResults ∧
    (handleSubmit env backend s).1.success = "" ∧
    (handleSubmit env backend s).1.isLoading = false := by
  have hlen : ¬ s.selectedFiles.length = 0 := by
    intro h
    exact hsel (List.length_eq_zero.mp h)
  have hrun : (handleSubmit env backend s).1
      = { s with isLoading := false, error := submitErrorMessage e, success := "" } := by
    cases hmode : s.uploadMode with
    | single =>
      rw [hmode] at hfail
      simp [handleSubmit, hlen, hmode, hfail]
    | multiple =>
      rw [hmode] at hfail
      simp [handleSubmit, hlen, hmode, hfail]
  rw [hrun]
  refine ⟨?_, ?_, rfl, rfl, rfl⟩
  · intro msg hmsg hne
    simp [submitErrorMessage, hmsg, hne]
  · intro hnone
    rcases hnone with h | h <;> simp [submitErrorMessage, h]

/-- Witness for C11: a classified PNG resubmitted in single mode while the
server answers with the error 'Model not loaded'. -/
theorem handleSubmit_failure_error_witness :
    (handleSubmit sampleBrowser (failingBackend { responseDataError := some "Model not loaded" })
      singleWithResult).1.error = "Model not loaded" ∧
    (handleSubmit sampleBrowser (failingBackend { responseDataError := some "Model not loaded" })
      singleWithResult).1.predictionResults = singleWithResult.predictionResults ∧
    (handleSubmit sampleBrowser (failingBackend { responseDataError := some "Model not loaded" })
      singleWithResult).1.success = "" :=
  have h := handleSubmit_failure_error sampleBrowser
    (failingBackend { responseDataError := some "Model not loaded" }) singleWithResult
    { responseDataError := some "Model not loaded" } (by decide) rfl
  ⟨h.1 "Model not loaded" rfl (by decide), h.2.2.1, h.2.2.2.1⟩

/-! ## Theorems: result card -/

/-- C12: `getResultType` returns one of `real`, `fake`, `not_currency`: `real`
exactly for the label `real`, `fake` exactly for the label `fake`, and
`not_currency` for every other label, the missing one included; `getResultColor`
(`success`, `error`, `warning`), `getResultText` ('Real Currency', 'Fake Currency',
'Not a Currency') and `getResultIcon` split the labels in the same three classes. -/
theorem getResult_partition (label : Option String) :
    getResultType label ∈ ["real", "fake", "not_currency"] ∧
    (getResultType label = "real" ↔ label = some "real") ∧
    (getResultType label = "fake" ↔ label = some "fake") ∧
    (getResultType label = "not_currency" ↔ label ≠ some "real" ∧ label ≠ some "fake") ∧
    getResultType none = "not_currency" ∧
    (getResultColor label = "success" ↔ label = some "real") ∧
    (getResultColor label = "error" ↔ label = some "fake") ∧
    (getResultColor label = "warning" ↔ label ≠ some "real" ∧ label ≠ some "fake") ∧
    (getResultText label = "Real Currency" ↔ label = some "real") ∧
    (getResultText label = "Fake Currency" ↔ label = some "fake") ∧
    (getResultText label = "Not a Currency" ↔ label ≠ some "real" ∧ label ≠ some "fake") ∧
    (getResultIcon label = "✅" ↔ label = some "real") ∧
    (getResultIcon label = "❌" ↔ label = some "fake") ∧
    (getResultIcon label = "🚫" ↔ label ≠ some "real" ∧ label ≠ some "fake") := by
  by_cases hreal : label = some "real"
  · subst hreal
    simp [getResultType, getResultColor, getResultText, getResultIcon]
  · by_cases hfake : label = some "fake"
    · subst hfake
      simp [getResultType, getResultColor, getResultText, getResultIcon]
    · simp [getResultType, getResultColor, getResultText, getResultIcon, hreal, hfake]

/-- C15: for every result object, `PredictionResult` renders the card, always with
the label heading, the confidence and the processing time; the status chip is
present exactly when `status` is a non-empty string, labelled 'Success' for
`success` and 'Failed' for any other status; the 'Error: ...' line is present
exactly when `error` is a non-empty string and carries that message. -/
theorem PredictionResult_status_and_error (r : PredictionData) :
    ∃ view, PredictionResult (some r) = .card view ∧
      view.heading = getResultIcon r.label ++ " " ++ getResultText r.label ∧
      view.confidence = r.confidence.getD 0 ∧
      view.processingTime = r.processing_time.getD 0 ∧
      (view.statusChip = none ↔ (r.status = none ∨ r.status = some "")) ∧
      (∀ st, r.status = some st → st ≠ "" →
        view.statusChip
          = some { label := if st = "success" then "Success" else "Failed",
                   color := if st = "success" then "success" else "error" }) ∧
      (view.errorLine = none ↔ (r.error = none ∨ r.error = some "")) ∧
      (∀ msg, r.error = some msg → msg ≠ "" → view.errorLine = some ("Error: " ++ msg)) := by
  refine ⟨_, rfl, rfl, rfl, rfl, ?_, ?_, ?_, ?_⟩
  · cases hst : r.status with
    | none => simp [truthyString, hst]
    | some st => by_cases hempty : st = "" <;> simp [truthyString, hst, hempty]
  · intro st hst hne
    simp [truthyString, hst, hne]
  · cases herr : r.error with
    | none => simp [truthyString, herr]
    | some msg => by_cases hempty : msg = "" <;> simp [truthyString, herr, hempty]
  · intro msg herr hne
    simp [truthyString, herr, hne]

/-- C18: `getPredictionColor` and `getResultColor` agree on `real` (`success`),
`fake` (`error`) and `not_currency` (`warning`), and on every other label, the
missing one included, the first gives `default` and the second `warning`. -/
theorem colors_agree_on_known_labels (label : Option String) :
    (getPredictionColor (some "real") = "success" ∧ getResultColor (some "real") = "success") ∧
    (getPredictionColor (some "fake") = "error" ∧ getResultColor (some "fake") = "error") ∧
    (getPredictionColor (some "not_currency") = "warning" ∧
      getResultColor (some "not_currency") = "warning") ∧
    (label ∉ [some "real", some "fake", some "not_currency"] →
      getPredictionColor label = "default" ∧ getResultColor label = "warning") ∧
    (getPredictionColor label = getResultColor label
      ↔ label ∈ [some "real", some "fake", some "not_currency"]) := by
  have hother : label ∉ [some "real", some "fake", some "not_currency"] →
      getPredictionColor label = "default" ∧ getResultColor label = "warning" := by
    intro hnot
    simp only [List.mem_cons, List.mem_singleton, List.not_mem_nil, or_false, not_or] at hnot
    obtain ⟨hreal, hfake, hnc⟩ := hnot
    constructor
    · unfold getPredictionColor
      split
      · exact absurd rfl hreal
      · exact absurd rfl hfake
      · exact absurd rfl hnc
      · rfl
    · simp [getResultColor, hreal, hfake]
  refine ⟨⟨rfl, rfl⟩, ⟨rfl, rfl⟩, ⟨rfl, rfl⟩, hother, ?_⟩
  constructor
  · intro hagree
    by_contra hnot
    obtain ⟨h1, h2⟩ := hother hnot
    rw [h1, h2] at hagree
    exact absurd hagree (by decide)
  · intro hmem
    simp only [List.mem_cons, List.mem_singleton, List.not_mem_nil, or_false] at hmem
    rcases hmem with h | h | h <;> subst h <;> rfl

/-! ## Theorems: history fetch order -/

/-- C13 (as stated, refuted): mounting against a backend whose history request
fails while its statistics endpoint would answer issues the history request
only; no statistics request is made and `modelStats` stays empty. -/
theorem mount_skips_stats_when_history_fails :
    (historyStep none historyDownBackend .mount HistoryState.initial).2
      = [uploadHistoryRequest none HistoryState.initial] ∧
    modelStatsRequest none
      ∉ (historyStep none historyDownBackend .mount HistoryState.initial).2 ∧
    (historyStep none historyDownBackend .mount HistoryState.initial).1.modelStats = none ∧
    (historyDownBackend.modelStats (modelStatsRequest none)).isSome = true := by
  refine ⟨rfl, by decide, rfl, rfl⟩

/-- C13 (amended): on mount the history request is issued first and the
statistics request only after it has succeeded.  If the history request fails,
it is the only request, the error is set and `uploads` and `modelStats` keep
their values; if it succeeds, the statistics request follows, and when that
succeeds too its result is stored in `modelStats` and the rows in `uploads`. -/
theorem mount_fetches_history_then_stats (url : Option String) (backend : HistoryBackend)
    (s : HistoryState) :
    (backend.uploadHistory (uploadHistoryRequest url s) = none →
      historyStep url backend .mount s
        = ({ s with loading := false, error := "Failed to fetch data. Please try again." },
           [uploadHistoryRequest url s])) ∧
    (∀ uploads, backend.uploadHistory (uploadHistoryRequest url s) = some uploads →
      (historyStep url backend .mount s).2
        = [uploadHistoryRequest url s, modelStatsRequest url] ∧
      (historyStep url backend .mount s).1.uploads = uploads ∧
      (∀ stats, backend.modelStats (modelStatsRequest url) = some stats →
        (historyStep url backend .mount s).1.modelStats = some stats ∧
        (historyStep url backend .mount s).1.error = "")) := by
  constructor
  · intro hnone
    have h' : backend.uploadHistory
        (HistoryRequest.uploadHistory (buildApiUrl url (getEndpoint "UPLOAD_HISTORY"))
          (s.page + 1) s.rowsPerPage REQUEST_CONFIG_timeout) = none := hnone
    simp [historyStep, fetchData, h', uploadHistoryRequest]
  · intro uploads hsome
    have h' : backend.uploadHistory
        (HistoryRequest.uploadHistory (buildApiUrl url (getEndpoint "UPLOAD_HISTORY"))
          (s.page + 1) s.rowsPerPage REQUEST_CONFIG_timeout) = some uploads := hsome
    refine ⟨?_, ?_, ?_⟩
    · simp only [historyStep, fetchData, h']
      split <;> rfl
    · simp only [historyStep, fetchData, h']
      split <;> rfl
    · intro stats hstats
      have hs' : backend.modelStats
          (HistoryRequest.modelStats (buildApiUrl url (getEndpoint "MODEL_STATS"))
            REQUEST_CONFIG_timeout) = some stats := hstats
      simp [historyStep, fetchData, h', hs']

/-! ## Theorems: endpoint table -/

/-- The six configured keys give their configured paths, and `buildApiUrl` of
a string is the base URL followed by that string with nothing in between. -/
theorem getEndpoint_configured_paths (url : Option String) (e : String) :
    getEndpoint "PREDICT_SINGLE" = .string "/predict" ∧
    getEndpoint "PREDICT_MULTIPLE" = .string "/predict_multiple" ∧
    getEndpoint "UPLOAD_HISTORY" = .string "/upload_history" ∧
    getEndpoint "MODEL_STATS" = .string "/model_stats" ∧
    getEndpoint "HEALTH_CHECK" = .string "/health" ∧
    getEndpoint "HOME" = .string "/" ∧
    buildApiUrl url (.string e) = BASE_URL url ++ e ∧
    (∀ p ∈ ENDPOINTS, buildApiUrl url (getEndpoint p.1) = BASE_URL url ++ p.2) := by
  have hknown : ∀ p ∈ ENDPOINTS, getEndpoint p.1 = .string p.2 := by decide
  refine ⟨by decide, by decide, by decide, by decide, by decide, by decide, rfl, ?_⟩
  intro p hp
  rw [hknown p hp]
  rfl

/-- A key that is neither configured nor a name inherited from
`Object.prototype` is returned as it is. -/
theorem getEndpoint_fallback (key : String)
    (hkey : key ∉ ENDPOINTS.map Prod.fst) (hproto : key ∉ objectPrototypeKeys) :
    getEndpoint key = .string key := by
  have hlookup : ENDPOINTS.lookup key = none := by
    rw [List.lookup_eq_none_iff]
    intro p hp
    have hne : key ≠ p.1 := by
      intro heq
      exact hkey (List.mem_map.mpr ⟨p, hp, heq.symm⟩)
    simpa using hne
  simp [getEndpoint, endpointsGet, hlookup, hproto, Member.truthy]

/-- C14 (code defect): `constructor` is none of the six configured keys, yet
`getEndpoint` does not return the key: the table inherits a member of that name
from `Object.prototype` (the function `Object`), which is truthy, so the
fallback to the key is not taken, and `buildApiUrl` appends that function's
source text to the base URL. -/
theorem getEndpoint_constructor_not_key :
    "constructor" ∉ ENDPOINTS.map Prod.fst ∧
    getEndpoint "constructor" = .inherited "constructor" ∧
    getEndpoint "constructor" ≠ .string "constructor" ∧
    buildApiUrl none (getEndpoint "constructor")
      = "http://localhost:5000function Object() \x7b [native code] \x7d" := by
  refine ⟨by decide, by decide, by decide, by decide⟩

/-! ## Theorems: selection and preview lengths -/

/-- Filtering out one index leaves a length that depends only on the list's
length and the index. -/
theorem filterOutIndex_length {α : Type} (index : Nat) (prev : List α) :
    (filterOutIndex index prev).length
      = if index < prev.length then prev.length - 1 else prev.length := by
  rw [filterOutIndex_eq, List.length_append, List.length_take, List.length_drop]
  split <;> omega

/-- `handleSubmit` never touches `selectedFiles` or `previewUrls`. -/
theorem handleSubmit_keeps_selection (env : Browser) (backend : PredictBackend)
    (s : FormState) :
    (handleSubmit env backend s).1.selectedFiles = s.selectedFiles ∧
    (handleSubmit env backend s).1.previewUrls = s.previewUrls := by
  unfold handleSubmit
  split
  · exact ⟨rfl, rfl⟩
  · cases s.uploadMode with
    | single =>
      simp only
      split <;> exact ⟨rfl, rfl⟩
    | multiple =>
      simp only
      split <;> exact ⟨rfl, rfl⟩

/-- Every gesture keeps `selectedFiles` and `previewUrls` equally long. -/
theorem formStep_preserves_lengths (env : Browser) (backend : PredictBackend)
    (e : FormEvent) (s : FormState)
    (h : s.selectedFiles.length = s.previewUrls.length) :
    (formStep env backend e s).1.selectedFiles.length
      = (formStep env backend e s).1.previewUrls.length := by
  cases e with
  | fileInputChange files =>
    simp only [formStep, handleFileSelect]
    cases s.uploadMode with
    | single =>
      simp only [handleSingleFile]
      split
      · split
        · rfl
        · exact h
      · exact h
    | multiple =>
      simp only [handleMultipleFiles]
      split
      · exact h
      · simp
  | cameraButton => exact h
  | cameraClose => exact h
  | cameraCaptured now blobSize =>
    simp only [formStep, handleCameraCaptureSuccess]
    cases s.uploadMode with
    | single =>
      simp only [handleSingleFile]
      split
      · rfl
      · exact h
    | multiple => simp [h]
  | removeClicked index =>
    simp only [formStep, removeFile, filterOutIndex_length, h]
  | clearAllClicked => rfl
  | submitClicked =>
    obtain ⟨h1, h2⟩ := handleSubmit_keeps_selection env backend s
    simp only [formStep]
    rw [h1, h2]
    exact h
  | singleImageChip => exact h
  | multipleImagesChip => exact h

/-- From the initial empty state, after any sequence of gestures,
`selectedFiles` and `previewUrls` are equally long. -/
theorem formRun_lengths (env : Browser) (backend : PredictBackend) (events : List FormEvent) :
    (formRun env backend events FormState.initial).selectedFiles.length
      = (formRun env backend events FormState.initial).previewUrls.length := by
  have hgen : ∀ (s : FormState), s.selectedFiles.length = s.previewUrls.length →
      (formRun env backend events s).selectedFiles.length
        = (formRun env backend events s).previewUrls.length := by
    induction events with
    | nil => intro s hs; exact hs
    | cons e rest ih =>
      intro s hs
      exact ih _ (formStep_preserves_lengths env backend e s hs)
  exact hgen _ rfl

/-- An accepted file selection in single mode leaves exactly one selected file
and one preview. -/
theorem handleSingleFile_accepted_length (env : Browser) (f : File) (s : FormState)
    (hf : startsWith f.type "image/" = true) :
    (handleSingleFile env (some f) s).selectedFiles.length = 1 ∧
    (handleSingleFile env (some f) s).previewUrls.length = 1 := by
  have hg : isImageFile f = true := hf
  simp [handleSingleFile, hg]

/-- C16 (code defect): three images chosen in multiple mode, then the 'Single
Image' chip, then a PDF offered to the file input: the form is in single mode,
the file selection was handled (and rejected), and `selectedFiles` and
`previewUrls` both have length 3, above 1; the two lengths still agree. -/
theorem carried_selection_exceeds_one :
    (formRun sampleBrowser okBackend carriedSelection FormState.initial).uploadMode = .single ∧
    (formRun sampleBrowser okBackend carriedSelection FormState.initial).error
      = "Please select a valid image file." ∧
    (formRun sampleBrowser okBackend carriedSelection FormState.initial).selectedFiles.length
      = 3 ∧
    (formRun sampleBrowser okBackend carriedSelection FormState.initial).previewUrls.length
      = 3 := by
  refine ⟨rfl, rfl, rfl, rfl⟩

end FinalYear
